import Mathlib

/-!
Shallow embedding of `src/master.js` (kesaruhasun/Baileys_Public): a single
Express service holding one Baileys WhatsApp socket in the global variable
`sock`, exposing `GET /status` and nine `POST /send*` endpoints, with a
`connection.update` handler that re-invokes `startWhatsApp` on non-401 closes
and a `creds.update` handler that persists credentials.

JavaScript conventions modelled explicitly:
  - an absent (`undefined`) field of `req.body` is `Option.none`;
  - `x || d` on a string treats both `undefined` and `""` as falsy;
  - `x || false` on a boolean is `false` unless `x` is `true`;
  - optional chaining `a?.b?.c` is `Option.bind`.
-/

namespace Master

/-- JavaScript `x || d` for an optional string field: `undefined` and the
empty string are falsy, so both fall back to `d`. -/
def jsOrStr (x : Option String) (d : String) : String :=
  match x with
  | some s => if s = "" then d else s
  | none => d

/-- JavaScript `x || false` for an optional boolean field. -/
def jsOrFalse (x : Option Bool) : Bool :=
  match x with
  | some b => b
  | none => false

/-- `DEFAULT_TARGET_JID` constant of `master.js` (line 36). -/
def DEFAULT_TARGET_JID : String := "YourPhoneNumber@s.whatsapp.net"

/-- `const target = jid || DEFAULT_TARGET_JID;` — the target resolution done
by every send endpoint. -/
def resolveTarget (jid : Option String) : String :=
  jsOrStr jid DEFAULT_TARGET_JID

/-- The second argument passed to `sock.sendMessage` by each endpoint: the
per-kind payload object, fields exactly as constructed in `master.js`.
Request fields forwarded verbatim stay `Option` (they may be `undefined`). -/
inductive Payload where
  | text (text : Option String)
  | image (imageUrl : Option String) (caption : String)
  | video (videoUrl : Option String) (caption : String) (gifPlayback : Bool)
  | audio (audioUrl : Option String) (mimetype : String)
  | document (documentUrl : Option String) (mimetype : String) (fileName : String)
  | location (degreesLatitude degreesLongitude : Option Int)
      (name address : String)
  | contacts (displayName : String) (vcards : List (Option String))
  | react (reactionText key : Option String)
  | poll (pollName : Option String) (pollValues : Option (List String))
      (selectableCount : Option Nat) (toAnnouncementGroup : Bool)
  deriving DecidableEq

/-- The JSON bodies accepted by the nine send endpoints, one constructor per
endpoint; every field of `req.body` read by the handler appears, `Option`al
because JSON fields may be absent. -/
inductive SendRequest where
  | text (jid text : Option String)
  | image (jid imageUrl caption : Option String)
  | video (jid videoUrl caption : Option String) (videoNote : Option Bool)
  | audio (jid audioUrl mimetype : Option String)
  | document (jid documentUrl mimetype filename : Option String)
  | location (jid : Option String) (latitude longitude : Option Int)
      (name address : Option String)
  | contact (jid vcard : Option String)
  | reaction (jid reactionText key : Option String)
  | poll (jid pollName : Option String) (pollValues : Option (List String))
      (selectableCount : Option Nat) (toAnnouncementGroup : Option Bool)
  deriving DecidableEq

/-- The `jid` field each handler destructures from `req.body`. -/
def jidOf : SendRequest → Option String
  | .text jid _ => jid
  | .image jid _ _ => jid
  | .video jid _ _ _ => jid
  | .audio jid _ _ => jid
  | .document jid _ _ _ => jid
  | .location jid _ _ _ _ => jid
  | .contact jid _ => jid
  | .reaction jid _ _ => jid
  | .poll jid _ _ _ _ => jid

/-- The payload object each handler builds and passes to `sock.sendMessage`,
translated line by line from `master.js` (defaults via `||`). -/
def payloadOf : SendRequest → Payload
  | .text _ text => .text text
  | .image _ imageUrl caption => .image imageUrl (jsOrStr caption "")
  | .video _ videoUrl caption videoNote =>
      .video videoUrl (jsOrStr caption "") (jsOrFalse videoNote)
  | .audio _ audioUrl mimetype => .audio audioUrl (jsOrStr mimetype "audio/mpeg")
  | .document _ documentUrl mimetype filename =>
      .document documentUrl (jsOrStr mimetype "application/pdf")
        (jsOrStr filename "document")
  | .location _ latitude longitude name address =>
      .location latitude longitude (jsOrStr name "") (jsOrStr address "")
  | .contact _ vcard => .contacts "Contact" [vcard]
  | .reaction _ reactionText key => .react reactionText key
  | .poll _ pollName pollValues selectableCount toAnnouncementGroup =>
      .poll pollName pollValues selectableCount (jsOrFalse toAnnouncementGroup)

/-- The `status` string of each endpoint's success JSON. -/
def okStatusOf : SendRequest → String
  | .text _ _ => "Text message sent"
  | .image _ _ _ => "Image message sent"
  | .video _ _ _ _ => "Video message sent"
  | .audio _ _ _ => "Audio message sent"
  | .document _ _ _ _ => "Document message sent"
  | .location _ _ _ _ _ => "Location message sent"
  | .contact _ _ => "Contact message sent"
  | .reaction _ _ _ => "Reaction sent"
  | .poll _ _ _ _ _ => "Poll message sent"

/-- HTTP response produced by a send handler: either the 200 success JSON
`{ status, target }` or the 500 error JSON `{ error: error.message }`. -/
inductive Response where
  | ok (status target : String)
  | err (code : Nat) (message : String)
  deriving DecidableEq

/-- The try/catch around `await sock.sendMessage(...)`: a successful send
answers `res.json({ status, target })`, a thrown error is caught and answered
as `res.status(500).json({ error: error.message })`. -/
def respond (okStatus target : String) : Except String Unit → Response
  | .ok _ => .ok okStatus target
  | .error m => .err 500 m

/-- The Baileys socket object as this service observes it: `GET /status`
reads only its `state` property (library-owned, possibly `undefined`). -/
structure Conn where
  state : Option String
  deriving DecidableEq

/-- Body of the JSON answered by `GET /status`. -/
inductive StatusBody where
  | connected (state : String)
  | notConnected
  deriving DecidableEq

/-- The `status` field of the `GET /status` JSON. -/
def statusString : StatusBody → String
  | .connected _ => "Connected"
  | .notConnected => "Not connected"

/-- `GET /status` handler: `if (sock && sock.state)` answer
`{ status: "Connected", state: sock.state }` else
`{ status: "Not connected" }` (an `undefined` or `""` state is falsy). -/
def statusHandler (sock : Option Conn) : StatusBody :=
  match sock with
  | some c =>
      match c.state with
      | some st => if st = "" then .notConnected else .connected st
      | none => .notConnected
  | none => .notConnected

/-- One invocation of `sock.sendMessage(target, payload)`. -/
structure NetCall where
  target : String
  content : Payload
  deriving DecidableEq

/-- Message of the TypeError thrown when `sock` is still `undefined` and the
handler evaluates `sock.sendMessage` (thrown inside the try, hence caught). -/
def undefinedSockMessage : String :=
  "Cannot read properties of undefined (reading sendMessage)"

/-- One send-endpoint request handled end to end. Arguments: the global
`sock` slot, the parsed body, and the outcome the underlying
`sock.sendMessage` call would report (`Except.error m` models a rejection
with message `m`). Returns the `sock` slot after the handler, the list of
`sendMessage` invocations performed, and the HTTP response. The handler
assigns nothing, and calls `sendMessage` unconditionally when `sock` is
populated — there is no connection-status check in `master.js`. -/
def sendStep (sock : Option Conn) (r : SendRequest) (outcome : Except String Unit) :
    Option Conn × List NetCall × Response :=
  match sock with
  | none => (none, [], Response.err 500 undefinedSockMessage)
  | some c =>
      let target := resolveTarget (jidOf r)
      (some c, [⟨target, payloadOf r⟩], respond (okStatusOf r) target outcome)

/-- `lastDisconnect.error.output` of a Boom error. -/
structure BoomOutput where
  statusCode : Option Nat
  deriving DecidableEq

/-- `lastDisconnect.error` object. -/
structure BoomError where
  output : Option BoomOutput
  deriving DecidableEq

/-- `lastDisconnect` member of a connection update. -/
structure LastDisconnect where
  error : Option BoomError
  deriving DecidableEq

/-- A `connection.update` event as destructured by the handler. -/
structure UpdateEvent where
  connection : Option String
  lastDisconnect : Option LastDisconnect
  deriving DecidableEq

/-- `const errorCode = lastDisconnect?.error?.output?.statusCode;` -/
def extractCode (u : UpdateEvent) : Option Nat :=
  ((u.lastDisconnect.bind (fun ld => ld.error)).bind
    (fun e => e.output)).bind (fun o => o.statusCode)

/-- Number of times the `connection.update` handler invokes `startWhatsApp`
for the event `u`: once when `connection === "close"` and
`errorCode !== 401`, zero otherwise (the 401 branch and the `open` branch
only log). -/
def connUpdateEstablishCount (u : UpdateEvent) : Nat :=
  match u.connection with
  | some c =>
      if c = "close" then
        if extractCode u ≠ some 401 then 1 else 0
      else 0
  | none => 0

/-- The full `connection.update` handler as a transformation of the global
`sock` slot: on `close` with code ≠ 401 it invokes `startWhatsApp`, which
assigns a fresh library-created socket to the slot; on a 401 close and on
`open` it only logs, assigning nothing (the 401 branch leaves the stale
closed socket in the slot). `fresh` is the socket the re-invoked
`makeWASocket` would produce. Returns the slot after the handler and the
number of `startWhatsApp` invocations. -/
def connUpdateStep (sock : Option Conn) (u : UpdateEvent) (fresh : Conn) :
    Option Conn × Nat :=
  match u.connection with
  | some c =>
      if c = "close" then
        if extractCode u ≠ some 401 then (some fresh, 1) else (sock, 0)
      else (sock, 0)
  | none => (sock, 0)

/-- Opaque Baileys credential material (`AuthenticationState`). -/
structure AuthState where
  creds : Nat
  deriving DecidableEq

/-- Modelled from the spec: `saveCreds`, returned by `useMultiFileAuthState`
(library code not present under `src/`), persists the new
`AuthenticationState` to durable storage, overwriting the stored state with
the updated one. -/
def saveCreds (_storage : Option AuthState) (a : AuthState) : Option AuthState :=
  some a

/-- The two observers `startWhatsApp` registers on the freshly created
socket, given as the state transformation each performs: the `creds.update`
handler mapping durable storage and the emitted update to the new storage
content, and the `connection.update` handler's `startWhatsApp` invocation
count. -/
structure RegisteredObservers where
  credsHandler : Option AuthState → AuthState → Option AuthState
  connHandler : UpdateEvent → Nat

/-- Observer registration performed by `startWhatsApp` immediately after
`makeWASocket`, before the function returns: `sock.ev.on("creds.update",
saveCreds)` and the `connection.update` reconnect handler. -/
def startWhatsAppObservers : RegisteredObservers :=
  { credsHandler := saveCreds
  , connHandler := connUpdateEstablishCount }

/-- Serial delivery of a list of `creds.update` events to a registered
handler: storage after processing the whole list. A crash after the n-th
event leaves exactly the storage obtained from the length-n prefix. -/
def processCredsWith (h : Option AuthState → AuthState → Option AuthState) :
    Option AuthState → List AuthState → Option AuthState
  | st, [] => st
  | st, a :: rest => processCredsWith h (h st a) rest

/-! ## Theorems -/

/-- Counterexample to claim C1 as stated: after a 401 close the manager does
not settle at Disconnected. The handler performs no establish and no state
change — it only logs — leaving the stale socket in the slot, so a
subsequent `GET /status` on that slot still answers "Connected" (and in no
case "Disconnected"). -/
theorem unauthorized_close_not_settled_disconnected :
    (connUpdateStep (some ⟨some "open"⟩)
        ⟨some "close", some ⟨some ⟨some ⟨some 401⟩⟩⟩⟩ ⟨none⟩).2 = 0 ∧
      (connUpdateStep (some ⟨some "open"⟩)
          ⟨some "close", some ⟨some ⟨some ⟨some 401⟩⟩⟩⟩ ⟨none⟩).1 =
        some ⟨some "open"⟩ ∧
      statusString (statusHandler (connUpdateStep (some ⟨some "open"⟩)
          ⟨some "close", some ⟨some ⟨some ⟨some 401⟩⟩⟩⟩ ⟨none⟩).1) = "Connected" ∧
      statusString (statusHandler (connUpdateStep (some ⟨some "open"⟩)
          ⟨some "close", some ⟨some ⟨some ⟨some 401⟩⟩⟩⟩ ⟨none⟩).1) ≠ "Disconnected" := by
  decide

/-- Claim C1 amended: for every `connection.update` event reporting `close`,
the handler re-invokes `startWhatsApp` exactly once iff the extracted close
code is not 401 (replacing the slot with the fresh socket), and zero times
iff the code is exactly 401, in which case it performs no state change at
all, leaving the socket slot untouched; the decision is a function of the
single event alone, so there is no retry cap or backoff. -/
theorem close_handler_reconnect_amended (sock : Option Conn) (u : UpdateEvent)
    (fresh : Conn) (h : u.connection = some "close") :
    ((connUpdateStep sock u fresh).2 = 1 ↔ extractCode u ≠ some 401) ∧
      ((connUpdateStep sock u fresh).2 = 0 ↔ extractCode u = some 401) ∧
      (extractCode u = some 401 → (connUpdateStep sock u fresh).1 = sock) ∧
      (extractCode u ≠ some 401 → (connUpdateStep sock u fresh).1 = some fresh) := by
  have hstep : connUpdateStep sock u fresh =
      if extractCode u ≠ some 401 then (some fresh, 1) else (sock, 0) := by
    unfold connUpdateStep
    rw [h]
    simp
  by_cases hc : extractCode u = some 401 <;> simp [hstep, hc]

/-- Witness for amended C1 at a concrete close event carrying code 408. -/
theorem close_handler_reconnect_amended_witness :
    ((connUpdateStep (some ⟨some "open"⟩)
          ⟨some "close", some ⟨some ⟨some ⟨some 408⟩⟩⟩⟩ ⟨none⟩).2 = 1 ↔
        extractCode ⟨some "close", some ⟨some ⟨some ⟨some 408⟩⟩⟩⟩ ≠ some 401) ∧
      ((connUpdateStep (some ⟨some "open"⟩)
            ⟨some "close", some ⟨some ⟨some ⟨some 408⟩⟩⟩⟩ ⟨none⟩).2 = 0 ↔
        extractCode ⟨some "close", some ⟨some ⟨some ⟨some 408⟩⟩⟩⟩ = some 401) ∧
      (extractCode ⟨some "close", some ⟨some ⟨some ⟨some 408⟩⟩⟩⟩ = some 401 →
        (connUpdateStep (some ⟨some "open"⟩)
            ⟨some "close", some ⟨some ⟨some ⟨some 408⟩⟩⟩⟩ ⟨none⟩).1 =
          some ⟨some "open"⟩) ∧
      (extractCode ⟨some "close", some ⟨some ⟨some ⟨some 408⟩⟩⟩⟩ ≠ some 401 →
        (connUpdateStep (some ⟨some "open"⟩)
            ⟨some "close", some ⟨some ⟨some ⟨some 408⟩⟩⟩⟩ ⟨none⟩).1 = some ⟨none⟩) :=
  close_handler_reconnect_amended (some ⟨some "open"⟩)
    ⟨some "close", some ⟨some ⟨some ⟨some 408⟩⟩⟩⟩ ⟨none⟩ rfl

/-- Claim C9: a `close` event whose `lastDisconnect` chain yields no status
code (the extracted code is `undefined`) is treated as transient: the handler
re-invokes `startWhatsApp` once, because only the exact code 401 is terminal. -/
theorem close_without_code_treated_transient (u : UpdateEvent)
    (h : u.connection = some "close") (hc : extractCode u = none) :
    connUpdateEstablishCount u = 1 := by
  unfold connUpdateEstablishCount
  rw [h]
  simp [hc]

/-- Witness for C9: a close event with `lastDisconnect` absent altogether. -/
theorem close_without_code_treated_transient_witness :
    connUpdateEstablishCount ⟨some "close", none⟩ = 1 :=
  close_without_code_treated_transient _ rfl rfl

/-- Counterexample to claim C3 as stated: `GET /status` with no socket
answers the status string "Not connected", which is none of the three claimed
values Disconnected, Connecting, Connected. -/
theorem status_returns_value_outside_claimed_set :
    statusString (statusHandler none) = "Not connected" ∧
      statusString (statusHandler none) ≠ "Disconnected" ∧
      statusString (statusHandler none) ≠ "Connecting" ∧
      statusString (statusHandler none) ≠ "Connected" := by
  decide

/-- Claim C3 amended: `status()` always returns one of exactly two values,
"Connected" or "Not connected"; it answers "Connected" exactly when a socket
exists and its `state` property is a truthy (present, non-empty) value, and
it is a pure total read of that slot. -/
theorem status_two_valued (sock : Option Conn) :
    (statusString (statusHandler sock) = "Connected" ∨
        statusString (statusHandler sock) = "Not connected") ∧
      (statusString (statusHandler sock) = "Connected" ↔
        ∃ c st, sock = some c ∧ c.state = some st ∧ st ≠ "") := by
  match sock with
  | none => simp [statusHandler, statusString]
  | some c =>
    match hst : c.state with
    | none => simp [statusHandler, statusString, hst]
    | some st =>
      by_cases he : st = "" <;>
        simp [statusHandler, statusString, hst, he]

/-- Counterexample to claim C2 as stated: with the socket present but its
state not connected (`/status` answers "Not connected"), the sendText handler
still performs the `sock.sendMessage` network call, and the failure comes
back as a 500 response carrying the underlying error message, not a
NotConnected error. -/
theorem send_while_disconnected_still_calls :
    statusString (statusHandler (some ⟨none⟩)) = "Not connected" ∧
      (sendStep (some ⟨none⟩) (.text none (some "hello"))
          (.error "Connection Closed")).2.1 ≠ [] ∧
      (sendStep (some ⟨none⟩) (.text none (some "hello"))
          (.error "Connection Closed")).2.2 = Response.err 500 "Connection Closed" := by
  decide

/-- Claim C2 amended: `send()` performs no connection-status check. For every
request kind, whenever the socket slot is populated — connected or not — the
handler invokes the underlying `sendMessage` exactly once, and a rejected
send is returned as a 500 error response carrying the underlying message;
there is no distinct NotConnected error and no no-call short-circuit. -/
theorem send_bypasses_status_check (sock : Option Conn) (r : SendRequest)
    (o : Except String Unit) (h : sock.isSome = true) :
    (sendStep sock r o).2.1 = [⟨resolveTarget (jidOf r), payloadOf r⟩] ∧
      ∀ m, o = .error m → (sendStep sock r o).2.2 = Response.err 500 m := by
  match sock with
  | none => simp at h
  | some c =>
    refine ⟨rfl, ?_⟩
    intro m hm
    simp [sendStep, hm, respond]

/-- Witness for amended C2 at a concrete not-connected socket and failing
text send. -/
theorem send_bypasses_status_check_witness :
    (sendStep (some ⟨none⟩) (.text none (some "hi")) (.error "boom")).2.1 =
        [⟨resolveTarget (jidOf (.text none (some "hi"))),
          payloadOf (.text none (some "hi"))⟩] ∧
      ∀ m, (Except.error "boom" : Except String Unit) = .error m →
        (sendStep (some ⟨none⟩) (.text none (some "hi")) (.error "boom")).2.2 =
          Response.err 500 m :=
  send_bypasses_status_check (some ⟨none⟩) (.text none (some "hi"))
    (.error "boom") rfl

/-- Counterexample to claim C4 as stated: a recipient identifier present in
the request as the empty string is not used verbatim — `jid || DEFAULT`
treats it as falsy and substitutes the configured fallback. -/
theorem empty_jid_falls_back_to_default :
    resolveTarget (some "") = DEFAULT_TARGET_JID ∧ resolveTarget (some "") ≠ "" := by
  decide

/-- Claim C4 amended: if the recipient identifier is omitted or is the empty
string (falsy), `send()` resolves the target to the process-configured
fallback `DEFAULT_TARGET_JID`; a present non-empty identifier is used
verbatim. -/
theorem resolve_target_amended :
    resolveTarget none = DEFAULT_TARGET_JID ∧
      resolveTarget (some "") = DEFAULT_TARGET_JID ∧
      ∀ s : String, s ≠ "" → resolveTarget (some s) = s := by
  refine ⟨rfl, rfl, ?_⟩
  intro s hs
  simp [resolveTarget, jsOrStr, hs]

/-- Witness for amended C4 at a concrete non-empty identifier. -/
theorem resolve_target_amended_witness :
    resolveTarget (some "user@s.whatsapp.net") = "user@s.whatsapp.net" :=
  resolve_target_amended.2.2 "user@s.whatsapp.net" (by decide)

/-- Claim C5: a Video request with caption and videoNote omitted is forwarded
with caption "" and gif-style playback false, and a Document request with
mimetype and filename omitted is forwarded with mimetype "application/pdf"
and file name "document". -/
theorem video_document_omitted_defaults (jid videoUrl documentUrl : Option String) :
    payloadOf (.video jid videoUrl none none) = .video videoUrl "" false ∧
      payloadOf (.document jid documentUrl none none) =
        .document documentUrl "application/pdf" "document" :=
  ⟨rfl, rfl⟩

/-- Claim C6: `startWhatsApp` registers `saveCreds` as the `creds.update`
observer on the new socket, and under serial event delivery every handled
credential update leaves durable storage containing exactly that update,
whatever the prior storage and event history — so a crash immediately after
an update is handled still finds that update persisted. -/
theorem creds_update_persists_each_update (storage : Option AuthState)
    (pre : List AuthState) (a : AuthState) :
    processCredsWith startWhatsAppObservers.credsHandler storage (pre ++ [a]) =
      some a := by
  induction pre generalizing storage with
  | nil => rfl
  | cons b rest ih => exact ih (startWhatsAppObservers.credsHandler storage b)

/-- Claim C7: for every send endpoint and populated socket slot, a successful
underlying send answers the success JSON carrying the resolved recipient
identifier, and a rejected send answers the 500 error JSON wrapping exactly
the message the underlying call reported. -/
theorem send_result_carries_target_or_error (sock : Option Conn)
    (r : SendRequest) (o : Except String Unit) (h : sock.isSome = true) :
    (o = .ok () → (sendStep sock r o).2.2 =
        Response.ok (okStatusOf r) (resolveTarget (jidOf r))) ∧
      ∀ m, o = .error m → (sendStep sock r o).2.2 = Response.err 500 m := by
  match sock with
  | none => simp at h
  | some c =>
    constructor
    · intro hok
      simp [sendStep, hok, respond]
    · intro m hm
      simp [sendStep, hm, respond]

/-- Witness for C7 at a concrete successful contact send. -/
theorem send_result_carries_target_or_error_witness :
    ((Except.ok () : Except String Unit) = .ok () →
        (sendStep (some ⟨some "open"⟩) (.contact none (some "vc")) (.ok ())).2.2 =
          Response.ok (okStatusOf (.contact none (some "vc")))
            (resolveTarget (jidOf (.contact none (some "vc"))))) ∧
      ∀ m, (Except.ok () : Except String Unit) = .error m →
        (sendStep (some ⟨some "open"⟩) (.contact none (some "vc")) (.ok ())).2.2 =
          Response.err 500 m :=
  send_result_carries_target_or_error (some ⟨some "open"⟩)
    (.contact none (some "vc")) (.ok ()) rfl

/-- Claim C8: every send handler leaves the socket slot exactly as it found
it (no local state change beyond the network call), and every error the
underlying send raises — including the TypeError when the slot is empty — is
caught by the try/catch and returned as a 500 error response value, never
propagating out of the handler. -/
theorem send_errors_are_values_no_state_change (sock : Option Conn)
    (r : SendRequest) (o : Except String Unit) :
    (sendStep sock r o).1 = sock ∧
      ∀ m, o = .error m →
        ∃ e, (sendStep sock r o).2.2 = Response.err 500 e := by
  match sock with
  | none =>
    exact ⟨rfl, fun m _ => ⟨undefinedSockMessage, rfl⟩⟩
  | some c =>
    refine ⟨rfl, ?_⟩
    intro m hm
    exact ⟨m, by simp [sendStep, hm, respond]⟩

/-- Witness for C8 at a concrete failing image send. -/
theorem send_errors_are_values_no_state_change_witness :
    (sendStep (some ⟨some "open"⟩) (.image none (some "u") none)
        (.error "rejected")).1 = some ⟨some "open"⟩ ∧
      ∀ m, (Except.error "rejected" : Except String Unit) = .error m →
        ∃ e, (sendStep (some ⟨some "open"⟩) (.image none (some "u") none)
          (.error "rejected")).2.2 = Response.err 500 e :=
  send_errors_are_values_no_state_change (some ⟨some "open"⟩)
    (.image none (some "u") none) (.error "rejected")

/-- Claim C10: for every Contact send, the forwarded contacts payload has the
literal displayName "Contact" regardless of the request, and forwards only
the request's vcard field. -/
theorem contact_payload_literal_display_name (jid vcard : Option String) :
    payloadOf (.contact jid vcard) = .contacts "Contact" [vcard] :=
  rfl

end Master
